import Mathlib

/-!
Verification of the xpra builtin SSH server (`xpra/server/ssh.py`).

The Python source is shallowly embedded below.  Python byte strings are
`List Nat`, Python `str` values are `String`, the `paramiko` result codes are
the numeric constants the library defines, and Python exceptions are modelled
with `Except PyErr`.  Machinery that lives outside the embedded file
(`hashlib`, the channel object, the wall clock, the `set()` iteration order of
the runtime) enters as explicit parameters so that every decision made by the
embedded code is a pure function of its inputs.
-/

deriving instance DecidableEq for Except

namespace Xpra

/-- Python exceptions that the embedded code can raise. -/
inductive PyErr
  | typeError
  | attributeError
  | indexError
  deriving DecidableEq, Repr

/-- A Python runtime value that is either a `str` or a `bytes` object.
Python 3 equality between a `str` and a `bytes` value is `False` whatever
their contents, which this model preserves. -/
inductive PyVal
  | str (s : String)
  | bytes (b : List Nat)
  deriving DecidableEq, Repr

/-- Python `==` on `str`/`bytes` values: equal only within the same type. -/
def pyValEq : PyVal → PyVal → Bool
  | .str a, .str b => a == b
  | .bytes a, .bytes b => a == b
  | _, _ => false

/-- Python `str.startswith`: the prefix relation on the character sequences. -/
def pyStartswith (s pre : String) : Bool :=
  pre.data.isPrefixOf s.data

/-- Python `str.endswith`: the suffix relation on the character sequences. -/
def pyEndswith (s suf : String) : Bool :=
  suf.data.isSuffixOf s.data

/-- Python `str.lstrip(chars)`: drop leading characters drawn from `cs`. -/
def lstripChars (s : String) (cs : List Char) : String :=
  String.mk (s.data.dropWhile (fun c => cs.contains c))

/-- Python `str.rstrip(chars)`: drop trailing characters drawn from `cs`. -/
def rstripChars (s : String) (cs : List Char) : String :=
  String.mk ((s.data.reverse.dropWhile (fun c => cs.contains c)).reverse)

/-- Python `str.strip(chars)`: drop leading and trailing characters from `cs`. -/
def stripChars (s : String) (cs : List Char) : String :=
  rstripChars (lstripChars s cs) cs

/-- Worker for `pySplit`, splitting on the non-empty separator `sep` with
enough fuel to consume the whole character list (separator matches are
non-overlapping and leftmost-first, as in Python `str.split`). -/
def splitOnGo (sep : List Char) : Nat → List Char → List Char → List (List Char)
  | 0, _, cur => [cur.reverse]
  | _ + 1, [], cur => [cur.reverse]
  | n + 1, c :: rest, cur =>
      if sep.isPrefixOf (c :: rest) then
        cur.reverse :: splitOnGo sep n ((c :: rest).drop sep.length) []
      else splitOnGo sep n rest (c :: cur)

/-- Python `str.split(sep)` for a non-empty separator. -/
def pySplit (s sep : String) : List String :=
  (splitOnGo sep.data (s.data.length + 1) s.data []).map (fun l => String.mk l)

/-- Python `str.find(sub)`: character index of the first occurrence of `sub`,
`-1` when `sub` does not occur. -/
def pyFind (s sub : String) : Int :=
  match pySplit s sub with
  | [] => -1
  | [_] => -1
  | first :: _ :: _ => (first.length : Int)

/-- Python `s.split(sub, 1)[1]`: everything after the first occurrence of
`sub`.  Only evaluated by the embedded code after `s.find(sub) > 0`, so the
occurrence exists; the fallback arm returns `s` itself. -/
def splitAfterFirst (s sub : String) : String :=
  match pySplit s sub with
  | [] => s
  | [_] => s
  | _ :: r1 :: rs => String.intercalate sub (r1 :: rs)

/-- Worker for `shlexSplit`: characters left, open quote, whether the current
token has started, accumulated token characters in reverse. -/
def shlexGo : List Char → Option Char → Bool → List Char → List String
  | [], _, started, cur =>
      if started then [String.mk cur.reverse] else []
  | c :: rest, some q, started, cur =>
      if c = q then shlexGo rest none true cur
      else shlexGo rest (some q) started (c :: cur)
  | c :: rest, none, started, cur =>
      if c = ' ' ∨ c = '\t' ∨ c = '\n' then
        (if started then [String.mk cur.reverse] else []) ++ shlexGo rest none false []
      else if c = '"' ∨ c = '\'' then shlexGo rest (some c) true cur
      else shlexGo rest none true (c :: cur)

/-- Python `shlex.split` in POSIX mode, for input without backslash escapes or
comment characters (none occur in the command fragments this server parses):
whitespace separates tokens, single and double quotes group characters and may
produce empty tokens, and quote pairs are assumed balanced. -/
def shlexSplit (s : String) : List String :=
  shlexGo s.data none false []

/-- `paramiko.AUTH_FAILED`. -/
def AUTH_FAILED : Nat := 2

/-- `paramiko.AUTH_SUCCESSFUL`. -/
def AUTH_SUCCESSFUL : Nat := 0

/-- `paramiko.OPEN_SUCCEEDED` (numerically equal to `AUTH_SUCCESSFUL`). -/
def OPEN_SUCCEEDED : Nat := 0

/-!
## `SSHServer.check_channel_exec_request` (ssh.py lines 149-254)

The channel object and subprocess machinery are side effects; the embedding
returns a record of the externally observable effects of one call: the Python
return value, whether `self.event.set()` and `channel.close()` were called,
whether a subprocess was spawned (`Popen` invoked), and whether
`self._run_proxy` was invoked, together with the branch that handled the
command.  Byte traffic written back over the channel (probe output, exit
status) is recorded by the branch, not simulated.
-/

/-- The environment a `check_channel_exec_request` call reads:
`posix` is `xpra.os_util.POSIX`; `proxy_start_opt` is the value of
`parse_bool("proxy-start", self.options.get("proxy-start"), False)`;
`display_name` is `getattr(self, "display_name", "")`; `osexpand` is the
environment-variable expansion oracle; `setOrder` is the iteration order the
Python runtime gives to `tuple(set(l))` — the code's result depends on it. -/
structure ExecEnv where
  posix : Bool
  proxy_start_opt : Bool
  display_name : String
  osexpand : String → String
  setOrder : List String → List String

/-- `tuple(set(l))` enumerates the distinct elements of `l` in some order:
duplicate-free and containing exactly the members of `l`. -/
def ValidSetOrder (f : List String → List String) : Prop :=
  ∀ l : List String, (f l).Nodup ∧ ∀ x, x ∈ f l ↔ x ∈ l

/-- First-occurrence order is one valid `tuple(set(l))` enumeration. -/
def dedupOrder : List String → List String := fun l => l.dedup

/-- Which branch of `check_channel_exec_request` handled the command. -/
inductive ExecBranch
  | probeWin32 (found : Bool)
  | probePosix (probeCmd : List String)
  | proxyStartBranch (sub : String) (args : List String)
  | proxyDirect
  | legacyProxy
  | rejected
  deriving DecidableEq, Repr

/-- Externally observable effects of one `check_channel_exec_request` call. -/
structure ExecResult where
  branch : ExecBranch
  retval : Bool
  event_set : Bool
  channel_closed : Bool
  spawned : Bool
  run_proxy_called : Bool
  deriving DecidableEq, Repr

/-- The local `fail()` helper: `self.event.set(); channel.close(); return False`. -/
def failResult : ExecResult :=
  { branch := .rejected, retval := false, event_set := true,
    channel_closed := true, spawned := false, run_proxy_called := false }

/-- Rule-2 `_proxy` acceptance: `self._run_proxy(channel)` then `return True`. -/
def proxyDirectResult : ExecResult :=
  { branch := .proxyDirect, retval := true, event_set := true,
    channel_closed := false, spawned := false, run_proxy_called := true }

/-- Rule-3 acceptance: `self._run_proxy(channel)` then `return True`. -/
def legacyProxyResult : ExecResult :=
  { branch := .legacyProxy, retval := true, event_set := true,
    channel_closed := false, spawned := false, run_proxy_called := true }

/-- One fragment of the legacy long command (ssh.py lines 234-246): a fragment
of `parse_cmd.split("if ")` contributes `shlex.split(then_str)[1]` as a
candidate subcommand when it starts with one of the three probe patterns,
contains `"then "` at a positive offset, and its `then` clause (truncated at
the first `;` when one occurs at a positive offset) has at least two tokens. -/
def candidate_of_fragment (s : String) : Option String :=
  if (pyStartswith s "type \"xpra\"" = true ∨ pyStartswith s "which \"xpra\"" = true ∨
      pyStartswith s "[ -x" = true) ∧ pyFind s "then " > 0 then
    let t0 := splitAfterFirst s "then "
    let t := if pyFind t0 ";" > 0 then (pySplit t0 ";").headD t0 else t0
    match shlexSplit t with
    | _ :: sub :: _ => some sub
    | _ => none
  else none

/-- The `subcommands` list collected by the legacy branch (ssh.py 233-246). -/
def extract_subcommands (parse_cmd : String) : List String :=
  (pySplit parse_cmd "if ").filterMap candidate_of_fragment

/-- `parse_cmd` selection of the legacy branch (ssh.py 225-230): the sole
token, or the third token of `sh -c <long command>`, or the empty string. -/
def rule3_parse_cmd (cmd : List String) : String :=
  if cmd.length = 1 then cmd.headD ""
  else if cmd.length = 3 ∧ cmd.take 2 = ["sh", "-c"] then cmd.getD 2 ""
  else ""

/-- `SSHServer.check_channel_exec_request` (ssh.py lines 149-254) applied to
the already-tokenized command `cmd = shlex.split(decode_str(command))`.
With an empty token list the very first test `cmd[0] in (...)` raises
`IndexError`.  Rule 1 (probe), rule 2 (direct xpra subcommand) and rule 3
(legacy multi-branch script) follow the source order and guards exactly. -/
def check_channel_exec_request (env : ExecEnv) (cmd : List String) :
    Except PyErr ExecResult :=
  match cmd with
  | [] => .error .indexError
  | c0 :: rest =>
    if (c0 = "type" ∨ c0 = "which" ∨ c0 = "command") ∧
       ((c0 :: rest).length = 2 ∨ (c0 :: rest).length = 3) then
      let xpra_cmd := (c0 :: rest).getLastD ""
      if env.posix = false then
        if stripChars (stripChars xpra_cmd ['"']) ['\''] = "xpra" then
          .ok { branch := .probeWin32 true, retval := true, event_set := false,
                channel_closed := false, spawned := false, run_proxy_called := false }
        else
          .ok { branch := .probeWin32 false, retval := true, event_set := false,
                channel_closed := false, spawned := false, run_proxy_called := false }
      else
        .ok { branch := .probePosix ((c0 :: rest).dropLast ++ [env.osexpand xpra_cmd]),
              retval := true, event_set := false, channel_closed := false,
              spawned := true, run_proxy_called := false }
    else if pyEndswith c0 "xpra" = true ∧ (c0 :: rest).length ≥ 2 then
      let sub := rstripChars (stripChars (rest.headD "") ['"', '\'']) [';']
      if sub = "_proxy_start" ∨ sub = "_proxy_start_desktop" ∨
         sub = "_proxy_shadow_start" then
        if env.proxy_start_opt = false then
          .ok failResult
        else
          .ok { branch := .proxyStartBranch sub (rest.drop 1), retval := true,
                event_set := true, channel_closed := false, spawned := true,
                run_proxy_called := true }
      else if sub = "_proxy" then
        if (c0 :: rest).length = 3 then
          if env.display_name ≠ (c0 :: rest).getD 2 "" then .ok failResult
          else .ok proxyDirectResult
        else .ok proxyDirectResult
      else .ok failResult
    else
      let subs := extract_subcommands (rule3_parse_cmd (c0 :: rest))
      if subs ≠ [] ∧ (env.setOrder subs).headD "" = "_proxy" then
        .ok legacyProxyResult
      else .ok failResult

/-!
## `SSHServer.check_auth_publickey` (ssh.py lines 88-135)

The authorized-keys file is opened in binary mode (`open(..., "rb")`), so the
loop variable `line` is a `bytes` object; the digests produced by `hashlib`
are `str` objects while `binascii.hexlify(fingerprint)` is `bytes`.  The
embedding keeps the `str`/`bytes` distinction because the source mixes the two
types: `bytes` values are `List Nat`.
-/

/-- Python 3 `bytes.startswith` called with a `str` prefix raises `TypeError`
whatever the contents (ssh.py line 110 passes the `str` literal `"#"` to a
`bytes` line read from the file opened in binary mode). -/
def bytesStartswithStr (_line : List Nat) (_pre : String) : Except PyErr Bool :=
  .error .typeError

/-- Python 3 `bytes.strip` called with a `str` argument raises `TypeError`
(ssh.py line 112, `line.strip("\x5cn\x5cr")` on a `bytes` line). -/
def bytesStripStr (_line : List Nat) (_chars : String) : Except PyErr (List Nat) :=
  .error .typeError

/-- Models ssh.py line 114,
`base64.b64decode(line.strip().split()[1].encode('ascii'))`, evaluated inside
`try/except Exception`: Python 3 `bytes` has no `encode` method, so the
attribute access raises `AttributeError` for every line; the handler catches
it and the line yields no key material. -/
def decode_key_line (_line : List Nat) : Option (List Nat) :=
  none

/-- The `first_time` registry key used at ssh.py line 126,
`"hash-%s-missing" % hash_algo`. -/
def ftKey (algo : String) : String :=
  "hash-" ++ algo ++ "-missing"

/-- The inner hash loop of `check_auth_publickey` (ssh.py lines 118-133) for
one decoded key: for each configured algorithm name, `getattr(hashlib, name)`
(raising `AttributeError` when `hashlib` has no such attribute — only
`ValueError` is caught), construct the hash (a `ValueError`, e.g. under FIPS,
leaves `hash_instance = None` and the algorithm is skipped with a
once-per-process warning via `first_time`), and compare the hex digest with
the presented key's fingerprint.  `hl name` is `none` when the attribute is
missing; `mk key = none` when construction raises `ValueError`; otherwise the
hex digest.  Returns (matched, updated `first_time` registry, warnings emitted
in order). -/
def fingerprint_hash_scan (hl : String → Option (List Nat → Option String))
    (key : List Nat) (hexfp : PyVal) :
    List String → List String → Except PyErr (Bool × List String × List String)
  | [], st => .ok (false, st, [])
  | algo :: rest, st =>
    match hl algo with
    | none => .error .attributeError
    | some mk =>
      match mk key with
      | none =>
        if ftKey algo ∈ st then
          fingerprint_hash_scan hl key hexfp rest st
        else
          match fingerprint_hash_scan hl key hexfp rest (ftKey algo :: st) with
          | .error e => .error e
          | .ok (m, st2, w) => .ok (m, st2, algo :: w)
      | some digest =>
        if pyValEq (.str digest) hexfp then .ok (true, st, [])
        else fingerprint_hash_scan hl key hexfp rest st

/-- Environment of one `check_auth_publickey` call.  `hashlib_attr` is the
`getattr(hashlib, ·)` oracle as in `fingerprint_hash_scan`; `hashes` is
`AUTHORIZED_KEYS_HASHES`; `first_time_seen` is the state of the global
`first_time` registry; the remaining fields are the policy flag, platform,
uid, `getpass.getuser()` result and the authorized-keys file. -/
structure AuthEnv where
  pubkey_auth : Bool
  posix : Bool
  uid : Nat
  sysusername : String
  authorized_keys_exists : Bool
  authorized_keys_lines : List (List Nat)
  hashlib_attr : String → Option (List Nat → Option String)
  hashes : List String
  first_time_seen : List String

/-- The per-line loop of `check_auth_publickey` (ssh.py lines 109-133):
skip comment lines (`line.startswith("#")` — raising `TypeError`, see
`bytesStartswithStr`), strip the line, decode the key material, run the hash
loop, and return `OPEN_SUCCEEDED` on a fingerprint match; fall through to
`AUTH_FAILED` after the last line. -/
def authkeys_scan (env : AuthEnv) (hexfp : PyVal) :
    List (List Nat) → List String → Except PyErr Nat
  | [], _ => .ok AUTH_FAILED
  | line :: rest, st =>
    match bytesStartswithStr line "#" with
    | .error e => .error e
    | .ok true => authkeys_scan env hexfp rest st
    | .ok false =>
      match bytesStripStr line "\n\r" with
      | .error e => .error e
      | .ok stripped =>
        match decode_key_line stripped with
        | none => authkeys_scan env hexfp rest st
        | some key =>
          match fingerprint_hash_scan env.hashlib_attr key hexfp env.hashes st with
          | .error e => .error e
          | .ok (true, _, _) => .ok OPEN_SUCCEEDED
          | .ok (false, st2, _) => authkeys_scan env hexfp rest st2

/-- `SSHServer.check_auth_publickey` (ssh.py lines 88-135): fail when
public-key auth is disabled; on a non-root or non-POSIX host fail when the
system account name differs from the connecting username; fail when the
authorized-keys file is missing; otherwise scan its lines against the
presented key's hex fingerprint. -/
def check_auth_publickey (env : AuthEnv) (username : String) (hexfp : PyVal) :
    Except PyErr Nat :=
  if env.pubkey_auth = false then .ok AUTH_FAILED
  else if (env.posix = false ∨ env.uid ≠ 0) ∧ env.sysusername ≠ username then
    .ok AUTH_FAILED
  else if env.authorized_keys_exists = false then .ok AUTH_FAILED
  else authkeys_scan env hexfp env.authorized_keys_lines env.first_time_seen

/-- ASCII bytes of a string, for writing concrete authorized-keys lines. -/
def asciiBytes (s : String) : List Nat :=
  s.data.map Char.toNat

/-!
## `SSHServer._run_proxy` (ssh.py lines 256-262)
-/

/-- The proxy-channel slot of one `SSHServer` plus its completion event;
`closed` records every channel on which `close()` has been called, in order.
Channels are identified by numbers. -/
structure ProxyState where
  proxy_channel : Option Nat
  event_set : Bool
  closed : List Nat
  deriving DecidableEq, Repr

/-- `SSHServer._run_proxy`: read the slot; when occupied, clear it and close
the previous channel; install the new channel; set the completion event. -/
def run_proxy (s : ProxyState) (c : Nat) : ProxyState :=
  match s.proxy_channel with
  | some pc => { proxy_channel := some c, event_set := true, closed := s.closed ++ [pc] }
  | none => { proxy_channel := some c, event_set := true, closed := s.closed }

/-!
## Tail of `make_ssh_server_connection` (ssh.py lines 437-452)

After the transport is started and a channel accepted, the bootstrap waits
(bounded) on the completion event and inspects the stashed proxy channel.
The embedding covers that decision: its inputs are whether the event is set,
the stashed proxy channel, and whether that channel carries a
`proxy_process` attribute (subprocess-bridge mode).
-/

/-- Outcome of the bootstrap tail: `ret = some c` stands for returning an
`SSHSocketConnection` wrapping channel `c`, `ret = none` for returning `None`;
`conn_closed` records whether `close()` ran on the raw connection. -/
structure BootstrapFinish where
  ret : Option Nat
  conn_closed : Bool
  deriving DecidableEq, Repr

/-- ssh.py lines 437-452: event unset or no stashed channel → close and return
`None`; stashed channel bridged to a subprocess → return `None` without
closing; otherwise return the connection object wrapping the channel. -/
def bootstrap_finish (event_set : Bool) (proxy_channel : Option Nat)
    (has_proxy_process : Nat → Bool) : BootstrapFinish :=
  if event_set = false ∨ proxy_channel = none then
    { ret := none, conn_closed := true }
  else
    match proxy_channel with
    | none => { ret := none, conn_closed := true }
    | some c =>
      if has_proxy_process c = true then { ret := none, conn_closed := false }
      else { ret := some c, conn_closed := false }

/-!
## `chan_send` (ssh.py lines 34-46)

`send_fn` reports how many bytes each call accepted; the wall clock enters as
the oracle `clock i`, the value of `monotonic() - start` at the `i`-th
evaluation of the loop condition (`i` also counts the `send_fn` calls made so
far).  The loop body advances the buffer by the accepted count; the loop stops
when the buffer is drained, the window is exhausted, or a send accepts
nothing; leftover data raises.
-/

/-- Body of the `while` loop of `chan_send`, with fuel: every iteration that
recurses consumes at least one byte of `data`, so any fuel of at least
`data.length` is enough, and at fuel zero `data` is already empty and the
fuel arm agrees with the drained-buffer arm.  Returns the remaining buffer
and the number of `send_fn` calls made. -/
def chan_send_go (send : List Nat → Nat) (clock : Nat → Rat) (timeout : Rat) :
    Nat → List Nat → Nat → List Nat × Nat
  | 0, data, i => (data, i)
  | fuel + 1, data, i =>
    if data = [] then (data, i)
    else if clock i < timeout then
      if send data = 0 then (data, i + 1)
      else chan_send_go send clock timeout fuel (data.drop (send data)) (i + 1)
    else (data, i)

/-- The `while` loop of `chan_send` (ssh.py lines 39-44). -/
def chan_send_loop (send : List Nat → Nat) (clock : Nat → Rat) (timeout : Rat)
    (data : List Nat) (i : Nat) : List Nat × Nat :=
  chan_send_go send clock timeout data.length data i

/-- `chan_send` (ssh.py lines 34-46): an empty buffer returns at once with no
send attempt; otherwise run the loop and raise exactly when data remains.
`.ok (remaining, calls)` records the drained buffer and the number of
`send_fn` invocations. -/
def chan_send (send : List Nat → Nat) (clock : Nat → Rat) (data : List Nat)
    (timeout : Rat) : Except String (List Nat × Nat) :=
  if data = [] then .ok ([], 0)
  else
    let r := chan_send_loop send clock timeout data 0
    if r.1 = [] then .ok r
    else .error "failed to send all the data"

/-!
## Concrete instances used by the witnesses and counterexamples
-/

/-- Whether a branch is the rule-1 executable probe (win32 or POSIX flavour). -/
def isProbeBranch : ExecBranch → Bool
  | .probeWin32 _ => true
  | .probePosix _ => true
  | _ => false

/-- Whether one configured algorithm name yields a digest equal to the
presented fingerprint (the per-algorithm test of ssh.py lines 121-131);
`false` for an unavailable (ValueError) algorithm. -/
def algo_matches (hl : String → Option (List Nat → Option String)) (key : List Nat)
    (hexfp : PyVal) (a : String) : Bool :=
  match hl a with
  | some mk =>
    match mk key with
    | some d => pyValEq (.str d) hexfp
    | none => false
  | none => false

/-- A concrete exec environment: POSIX, proxy-start disabled, no display,
identity expansion, first-occurrence set order. -/
def envD : ExecEnv :=
  { posix := true, proxy_start_opt := false, display_name := "",
    osexpand := id, setOrder := dedupOrder }

/-- The legacy long command of the specification's scenario: exactly one
extracted candidate subcommand, `_proxy`. -/
def scenarioCmd : String :=
  ": run-xpra _proxy;xpra initenv; if type \"xpra\" > /dev/null 2>&1; then xpra _proxy; fi"

/-- A legacy long command whose probe fragments yield the two distinct
candidates `_proxy` and `_shadow`. -/
def twoCandidateCmd : String :=
  "if [ -x /a ]; then /a/run-xpra _proxy; elif [ -x /b ]; then /b/run-xpra _shadow; fi"

/-- A `hashlib` oracle as on a FIPS host: `md5` is present but constructing it
raises `ValueError`; every other name is not an attribute of the module. -/
def hashlibFips : String → Option (List Nat → Option String) :=
  fun a => if a = "md5" then some (fun _ => none) else none

/-- A `hashlib` oracle with the six default algorithm names present and
available. -/
def hashlibDefault : String → Option (List Nat → Option String) :=
  fun a =>
    if a = "md5" ∨ a = "sha1" ∨ a = "sha224" ∨ a = "sha256" ∨ a = "sha384" ∨ a = "sha512"
    then some (fun _ => some ("digest-" ++ a)) else none

/-- An authentication environment in which every policy precondition of a
successful public-key authentication holds and the authorized-keys file holds
one well-formed key line. -/
def authEnvBug : AuthEnv :=
  { pubkey_auth := true, posix := true, uid := 1000, sysusername := "joe",
    authorized_keys_exists := true,
    authorized_keys_lines := [asciiBytes "ssh-rsa QUJD joe@host"],
    hashlib_attr := hashlibDefault,
    hashes := ["md5", "sha1", "sha224", "sha256", "sha384", "sha512"],
    first_time_seen := [] }

/-- A send function that accepts the whole buffer on every call. -/
def sendAll : List Nat → Nat := fun l => l.length

/-- A send function that accepts nothing on every call. -/
def sendNone : List Nat → Nat := fun _ => 0

/-- A wall clock frozen at the start of the window. -/
def clockZero : Nat → Rat := fun _ => 0

/-- A proxy-slot state already holding channel 7. -/
def proxyState0 : ProxyState :=
  { proxy_channel := some 7, event_set := false, closed := [] }

/-- A channel attribute oracle with no subprocess bridge attached. -/
def hasProcNone : Nat → Bool := fun _ => false

/-!
## Supporting lemmas
-/

/-- `dedupOrder` is one valid `tuple(set(·))` enumeration. -/
theorem dedupOrder_valid : ValidSetOrder dedupOrder := by
  intro l
  exact ⟨List.nodup_dedup l, fun x => List.mem_dedup⟩

/-- A valid set enumeration of a non-empty list all of whose members equal `v`
is exactly `[v]`. -/
theorem valid_order_all_eq (f : List String → List String) (hf : ValidSetOrder f)
    (v : String) (l : List String) (hne : l ≠ []) (hall : ∀ x ∈ l, x = v) :
    f l = [v] := by
  obtain ⟨hnodup, hmem⟩ := hf l
  have hv : v ∈ f l := by
    cases l with
    | nil => exact absurd rfl hne
    | cons a t =>
      have ha : a = v := hall a (by simp)
      exact (hmem v).mpr (ha ▸ List.mem_cons_self a t)
  cases hfl : f l with
  | nil => rw [hfl] at hv; cases hv
  | cons b t =>
    have hb : b = v := hall b ((hmem b).mp (by rw [hfl]; simp))
    have ht : t = [] := by
      rw [hfl] at hnodup
      by_contra htne
      obtain ⟨y, hy⟩ := List.exists_mem_of_ne_nil t htne
      have hyv : y = v := hall y ((hmem y).mp (by rw [hfl]; simp [hy]))
      have hbt : b ∉ t := (List.nodup_cons.mp hnodup).1
      subst hb
      subst hyv
      exact hbt hy
    rw [hb, ht]

/-- None of the rule-1 probe words ends with `xpra`. -/
theorem endsWith_xpra_not_probe_word (c0 : String) (hx : pyEndswith c0 "xpra" = true) :
    ¬(c0 = "type" ∨ c0 = "which" ∨ c0 = "command") := by
  rintro (rfl | rfl | rfl) <;> revert hx <;> decide

/-- `_run_proxy` always leaves the new channel in the slot. -/
theorem run_proxy_channel (s : ProxyState) (c : Nat) :
    (run_proxy s c).proxy_channel = some c := by
  unfold run_proxy; cases s.proxy_channel <;> rfl

/-- `_run_proxy` always sets the completion event. -/
theorem run_proxy_event (s : ProxyState) (c : Nat) :
    (run_proxy s c).event_set = true := by
  unfold run_proxy; cases s.proxy_channel <;> rfl

/-- `_run_proxy` closes exactly the displaced channel, when there is one. -/
theorem run_proxy_closed (s : ProxyState) (c : Nat) :
    (run_proxy s c).closed = s.closed ++ s.proxy_channel.toList := by
  unfold run_proxy; cases hp : s.proxy_channel <;> simp [hp]

/-- Full characterisation of the hash loop when every configured name is an
attribute of `hashlib`: it returns without an exception; the match result is
pointwise `algo_matches`; the warning list has no duplicates; every emitted
warning was new to the `first_time` registry and is recorded in the updated
registry; the registry only grows. -/
theorem fingerprint_hash_scan_ok (hl : String → Option (List Nat → Option String))
    (key : List Nat) (hexfp : PyVal) :
    ∀ (algos st : List String), (∀ a ∈ algos, (hl a).isSome) →
      ∃ m st2 w, fingerprint_hash_scan hl key hexfp algos st = .ok (m, st2, w) ∧
        m = algos.any (algo_matches hl key hexfp) ∧
        w.Nodup ∧ (∀ a ∈ w, ftKey a ∉ st ∧ ftKey a ∈ st2) ∧
        (∀ x ∈ st, x ∈ st2) := by
  intro algos
  induction algos with
  | nil =>
    intro st h
    exact ⟨false, st, [], rfl, rfl, List.nodup_nil, by simp, fun x hx => hx⟩
  | cons a rest ih =>
    intro st h
    obtain ⟨mk, hmk⟩ := Option.isSome_iff_exists.mp (h a (by simp))
    have hrest : ∀ b ∈ rest, (hl b).isSome := fun b hb => h b (by simp [hb])
    cases hmkk : mk key with
    | none =>
      by_cases hft : ftKey a ∈ st
      · obtain ⟨m, st2, w, heq, hm, hnd, hw, hsub⟩ := ih st hrest
        refine ⟨m, st2, w, ?_, ?_, hnd, hw, hsub⟩
        · simp only [fingerprint_hash_scan, hmk, hmkk]
          rw [if_pos hft]; exact heq
        · simp [hm, algo_matches, hmk, hmkk]
      · obtain ⟨m, st2, w, heq, hm, hnd, hw, hsub⟩ := ih (ftKey a :: st) hrest
        refine ⟨m, st2, a :: w, ?_, ?_, ?_, ?_, ?_⟩
        · simp only [fingerprint_hash_scan, hmk, hmkk]
          rw [if_neg hft, heq]
        · simp [hm, algo_matches, hmk, hmkk]
        · refine List.nodup_cons.mpr ⟨?_, hnd⟩
          intro haw
          exact (hw a haw).1 (by simp)
        · intro b hb
          rcases List.mem_cons.mp hb with rfl | hbw
          · exact ⟨hft, hsub _ (by simp)⟩
          · obtain ⟨h1, h2⟩ := hw b hbw
            exact ⟨fun hc => h1 (by simp [hc]), h2⟩
        · intro x hx
          exact hsub x (by simp [hx])
    | some d =>
      by_cases hd : pyValEq (.str d) hexfp = true
      · refine ⟨true, st, [], ?_, ?_, List.nodup_nil, by simp, fun x hx => hx⟩
        · simp only [fingerprint_hash_scan, hmk, hmkk]
          rw [if_pos hd]
        · simp [algo_matches, hmk, hmkk, hd]
      · obtain ⟨m, st2, w, heq, hm, hnd, hw, hsub⟩ := ih st hrest
        refine ⟨m, st2, w, ?_, ?_, hnd, hw, hsub⟩
        · simp only [fingerprint_hash_scan, hmk, hmkk]
          rw [if_neg hd]; exact heq
        · simp [hm, algo_matches, hmk, hmkk, Bool.eq_false_iff.mpr hd]

/-- Invariants of the `chan_send` loop body: the remaining buffer is always a
suffix of the input (the buffer advances by exactly the accepted counts), and
a non-empty remainder means the loop ended because the window was exhausted or
because the last send accepted zero bytes. -/
theorem chan_send_go_spec (send : List Nat → Nat) (clock : Nat → Rat) (t : Rat) :
    ∀ (fuel : Nat) (data : List Nat) (i : Nat), data.length ≤ fuel →
      (∃ k, (chan_send_go send clock t fuel data i).1 = data.drop k) ∧
      ((chan_send_go send clock t fuel data i).1 ≠ [] →
        t ≤ clock (chan_send_go send clock t fuel data i).2 ∨
        send (chan_send_go send clock t fuel data i).1 = 0) := by
  intro fuel
  induction fuel with
  | zero =>
    intro data i hlen
    have hdata : data = [] := List.length_eq_zero.mp (Nat.le_zero.mp hlen)
    subst hdata
    exact ⟨⟨0, rfl⟩, fun h => absurd rfl h⟩
  | succ n ih =>
    intro data i hlen
    by_cases hd : data = []
    · subst hd
      exact ⟨⟨0, rfl⟩, fun h => absurd rfl h⟩
    · rw [chan_send_go, if_neg hd]
      by_cases hc : clock i < t
      · rw [if_pos hc]
        by_cases hs : send data = 0
        · rw [if_pos hs]
          exact ⟨⟨0, by simp⟩, fun _ => Or.inr hs⟩
        · rw [if_neg hs]
          have hlen' : (data.drop (send data)).length ≤ n := by
            rw [List.length_drop]
            have h1 : 1 ≤ send data := Nat.pos_of_ne_zero hs
            have h2 : 1 ≤ data.length := List.length_pos.mpr hd
            omega
          obtain ⟨⟨k, hk⟩, himp⟩ := ih (data.drop (send data)) (i + 1) hlen'
          refine ⟨⟨k + send data, ?_⟩, himp⟩
          rw [hk, List.drop_drop, Nat.add_comm]
      · rw [if_neg hc]
        exact ⟨⟨0, by simp⟩, fun _ => Or.inl (le_of_not_lt hc)⟩

/-!
## Claim theorems
-/

/-- Claim C1 (code bug).  With public-key auth allowed, a matching system
username, an existing authorized-keys file and a well-formed key entry,
`check_auth_publickey` does not decide authentication at all: the first
statement applied to a line of the binary-mode file, `line.startswith("#")`,
calls a `bytes` method with a `str` argument and raises `TypeError`, so the
claimed fingerprint matching is unreachable. -/
theorem check_auth_publickey_raises_type_error :
    check_auth_publickey authEnvBug "joe" (.bytes (asciiBytes "4142")) =
      .error .typeError := by
  decide

/-- Any call that reaches the line loop with a non-empty authorized-keys file
raises `TypeError`, whatever the presented key. -/
theorem check_auth_publickey_nonempty_file_raises (env : AuthEnv) (username : String)
    (hexfp : PyVal) (hpk : env.pubkey_auth = true)
    (huser : ¬((env.posix = false ∨ env.uid ≠ 0) ∧ env.sysusername ≠ username))
    (hfile : env.authorized_keys_exists = true)
    (hlines : env.authorized_keys_lines ≠ []) :
    check_auth_publickey env username hexfp = .error .typeError := by
  unfold check_auth_publickey
  rw [if_neg (by simp [hpk]), if_neg huser, if_neg (by simp [hfile])]
  cases hl : env.authorized_keys_lines with
  | nil => exact absurd hl hlines
  | cons l rest => rfl

/-- Concrete instance of `check_auth_publickey_nonempty_file_raises`. -/
theorem check_auth_publickey_nonempty_file_raises_witness :
    check_auth_publickey authEnvBug "joe" (.bytes []) = .error .typeError :=
  check_auth_publickey_nonempty_file_raises authEnvBug "joe" (.bytes []) rfl
    (by decide) rfl (by decide)

/-- Claim C2, amended.  In the legacy branch the request is handed off to
`_run_proxy` exactly when the candidate list is non-empty and the head of the
runtime's `tuple(set(subcommands))` enumeration is `_proxy`; a candidate set
that collapses to the single value `_proxy` is always a handoff and an empty
candidate list is always a rejection, but with several distinct candidates the
outcome depends on the enumeration order. -/
theorem exec_legacy_handoff_iff_head_of_set_is_proxy (env : ExecEnv) (c0 : String)
    (rest : List String) (hord : ValidSetOrder env.setOrder)
    (h1 : ¬((c0 = "type" ∨ c0 = "which" ∨ c0 = "command") ∧
           ((c0 :: rest).length = 2 ∨ (c0 :: rest).length = 3)))
    (h2 : ¬(pyEndswith c0 "xpra" = true ∧ (c0 :: rest).length ≥ 2)) :
    (check_channel_exec_request env (c0 :: rest) = .ok legacyProxyResult ↔
       extract_subcommands (rule3_parse_cmd (c0 :: rest)) ≠ [] ∧
       (env.setOrder (extract_subcommands (rule3_parse_cmd (c0 :: rest)))).headD ""
         = "_proxy") ∧
    ((extract_subcommands (rule3_parse_cmd (c0 :: rest)) ≠ [] ∧
       ∀ x ∈ extract_subcommands (rule3_parse_cmd (c0 :: rest)), x = "_proxy") →
       check_channel_exec_request env (c0 :: rest) = .ok legacyProxyResult) ∧
    (extract_subcommands (rule3_parse_cmd (c0 :: rest)) = [] →
       check_channel_exec_request env (c0 :: rest) = .ok failResult) := by
  have key : check_channel_exec_request env (c0 :: rest) =
      if extract_subcommands (rule3_parse_cmd (c0 :: rest)) ≠ [] ∧
         (env.setOrder (extract_subcommands (rule3_parse_cmd (c0 :: rest)))).headD ""
           = "_proxy" then .ok legacyProxyResult else .ok failResult := by
    simp only [check_channel_exec_request]
    rw [if_neg h1, if_neg h2]
  refine ⟨?_, ?_, ?_⟩
  · rw [key]
    by_cases h3 : extract_subcommands (rule3_parse_cmd (c0 :: rest)) ≠ [] ∧
        (env.setOrder (extract_subcommands (rule3_parse_cmd (c0 :: rest)))).headD ""
          = "_proxy"
    · rw [if_pos h3]
      exact iff_of_true rfl h3
    · rw [if_neg h3]
      exact iff_of_false (fun h => absurd h (by decide)) h3
  · rintro ⟨hne, hall⟩
    rw [key, if_pos ⟨hne, by
      rw [valid_order_all_eq env.setOrder hord "_proxy" _ hne hall]; rfl⟩]
  · intro hnil
    rw [key, if_neg (by rintro ⟨hne, -⟩; exact hne hnil)]

/-- Claim C2, counterexample to the frozen statement.  A legacy command with
the two distinct extracted candidates `_proxy` and `_shadow` is handed off
(not rejected) under the valid first-occurrence set enumeration. -/
theorem exec_legacy_two_distinct_candidates_accepted :
    extract_subcommands twoCandidateCmd = ["_proxy", "_shadow"] ∧
    ValidSetOrder envD.setOrder ∧
    check_channel_exec_request envD [twoCandidateCmd] = .ok legacyProxyResult ∧
    legacyProxyResult.run_proxy_called = true ∧ legacyProxyResult.retval = true := by
  refine ⟨by decide, dedupOrder_valid, by decide, rfl, rfl⟩

/-- Concrete instance of `exec_legacy_handoff_iff_head_of_set_is_proxy`: the
specification's scenario command, whose only candidate is `_proxy`, is handed
off. -/
theorem exec_legacy_handoff_iff_witness :
    check_channel_exec_request envD ["sh", "-c", scenarioCmd] = .ok legacyProxyResult :=
  (exec_legacy_handoff_iff_head_of_set_is_proxy envD "sh" ["-c", scenarioCmd]
      dedupOrder_valid (by decide) (by decide)).2.1 (by decide)

/-- Claim C3.  With the proxy-start policy option disabled, an exec command
`xpra _proxy_start` (or the desktop/shadow variants, with any arguments) is
rejected: no subprocess is spawned, the channel is closed, the completion
event is set and `False` is returned. -/
theorem proxy_start_disallowed_rejects (env : ExecEnv) (sub : String) (args : List String)
    (hopt : env.proxy_start_opt = false)
    (hsub : sub = "_proxy_start" ∨ sub = "_proxy_start_desktop" ∨
            sub = "_proxy_shadow_start") :
    check_channel_exec_request env ("xpra" :: sub :: args) = .ok failResult ∧
    failResult.spawned = false ∧ failResult.channel_closed = true ∧
    failResult.event_set = true ∧ failResult.retval = false := by
  refine ⟨?_, rfl, rfl, rfl, rfl⟩
  simp only [check_channel_exec_request, List.headD_cons]
  rw [if_neg (by rintro ⟨h, -⟩; revert h; decide)]
  rw [if_pos ⟨by decide, by simp⟩]
  rcases hsub with rfl | rfl | rfl <;>
    · rw [if_pos (by decide)]
      rw [if_pos hopt]

/-- Concrete instance of `proxy_start_disallowed_rejects`. -/
theorem proxy_start_disallowed_rejects_witness :
    check_channel_exec_request envD ["xpra", "_proxy_start"] = .ok failResult ∧
    failResult.spawned = false ∧ failResult.channel_closed = true ∧
    failResult.event_set = true ∧ failResult.retval = false :=
  proxy_start_disallowed_rejects envD "_proxy_start" [] rfl (Or.inl rfl)

/-- Claim C4, amended.  For `<...xpra> _proxy ...` the display comparison runs
only when the token count is exactly three: then a display differing from the
gateway's own display is rejected and a matching one accepted; with two
tokens, or with four or more tokens, the request is accepted with no display
check at all. -/
theorem proxy_display_check_only_at_three_tokens (env : ExecEnv) (c0 : String)
    (rest : List String) (hx : pyEndswith c0 "xpra" = true) :
    (∀ d, rest = [d] → d ≠ env.display_name →
       check_channel_exec_request env (c0 :: "_proxy" :: rest) = .ok failResult) ∧
    (∀ d, rest = [d] → d = env.display_name →
       check_channel_exec_request env (c0 :: "_proxy" :: rest) = .ok proxyDirectResult) ∧
    (rest.length ≠ 1 →
       check_channel_exec_request env (c0 :: "_proxy" :: rest) = .ok proxyDirectResult) := by
  have key : ∀ rest' : List String,
      check_channel_exec_request env (c0 :: "_proxy" :: rest') =
        if (c0 :: "_proxy" :: rest').length = 3 then
          if env.display_name ≠ (c0 :: "_proxy" :: rest').getD 2 "" then .ok failResult
          else .ok proxyDirectResult
        else .ok proxyDirectResult := by
    intro rest'
    simp only [check_channel_exec_request, List.headD_cons]
    rw [if_neg (by rintro ⟨h1, -⟩; exact endsWith_xpra_not_probe_word c0 hx h1)]
    rw [if_pos ⟨hx, by simp⟩]
    rw [if_neg (by decide)]
    rw [if_pos (by decide)]
  refine ⟨?_, ?_, ?_⟩
  · rintro d rfl hd
    rw [key]
    rw [if_pos (by simp), if_pos (by simpa using fun h => hd h.symm)]
  · rintro d rfl rfl
    rw [key]
    rw [if_pos (by simp), if_neg (by simp)]
  · intro hlen
    rw [key]
    rw [if_neg (by simp; omega)]

/-- Claim C4, counterexample to the frozen statement.  `xpra _proxy a b`
carries two extra arguments, neither naming the gateway's display, yet the
request is accepted and handed off with no display check. -/
theorem proxy_accepts_two_extra_args_without_display_check :
    check_channel_exec_request envD ["xpra", "_proxy", "a", "b"] = .ok proxyDirectResult ∧
    proxyDirectResult.retval = true ∧ proxyDirectResult.run_proxy_called = true ∧
    "a" ≠ envD.display_name ∧ "b" ≠ envD.display_name := by
  refine ⟨by decide, rfl, rfl, by decide, by decide⟩

/-- Concrete instance of `proxy_display_check_only_at_three_tokens`: a
mismatching display is rejected. -/
theorem proxy_display_check_only_at_three_tokens_witness :
    check_channel_exec_request envD ["xpra", "_proxy", ":1"] = .ok failResult :=
  (proxy_display_check_only_at_three_tokens envD "xpra" [":1"] (by decide)).1
    ":1" rfl (by decide)

/-- Claim C5.  For a command whose first token is `type`, `which` or
`command`, the rule-1 executable-probe path handles the request exactly when
the token count is 2 or 3; with any other token count the command falls
through to the later dispatch rules. -/
theorem probe_rule_applies_iff_two_or_three_tokens (env : ExecEnv) (c0 : String)
    (rest : List String) (h : c0 = "type" ∨ c0 = "which" ∨ c0 = "command") :
    (∃ r, check_channel_exec_request env (c0 :: rest) = .ok r ∧
       isProbeBranch r.branch = true) ↔
      ((c0 :: rest).length = 2 ∨ (c0 :: rest).length = 3) := by
  constructor
  · rintro ⟨r, hr, hbr⟩
    by_contra hlen
    simp only [check_channel_exec_request] at hr
    rw [if_neg (by rintro ⟨-, h2⟩; exact hlen h2)] at hr
    rw [if_neg (by rintro ⟨h2, -⟩; rcases h with rfl | rfl | rfl <;> revert h2 <;> decide)] at hr
    by_cases h3 : extract_subcommands (rule3_parse_cmd (c0 :: rest)) ≠ [] ∧
        (env.setOrder (extract_subcommands (rule3_parse_cmd (c0 :: rest)))).headD ""
          = "_proxy"
    · rw [if_pos h3] at hr
      cases hr
      exact absurd hbr (by decide)
    · rw [if_neg h3] at hr
      cases hr
      exact absurd hbr (by decide)
  · intro hlen
    simp only [check_channel_exec_request]
    rw [if_pos ⟨h, hlen⟩]
    by_cases hpos : env.posix = false
    · rw [if_pos hpos]
      by_cases hx : stripChars (stripChars ((c0 :: rest).getLastD "") ['"']) ['\''] = "xpra"
      · rw [if_pos hx]; exact ⟨_, rfl, rfl⟩
      · rw [if_neg hx]; exact ⟨_, rfl, rfl⟩
    · rw [if_neg hpos]; exact ⟨_, rfl, rfl⟩

/-- Concrete instance of `probe_rule_applies_iff_two_or_three_tokens`. -/
theorem probe_rule_applies_iff_two_or_three_tokens_witness :
    ∃ r, check_channel_exec_request envD ["type", "xpra"] = .ok r ∧
      isProbeBranch r.branch = true :=
  (probe_rule_applies_iff_two_or_three_tokens envD "type" ["xpra"]
    (Or.inl rfl)).mpr (Or.inl rfl)

/-- Claim C6, amended.  A configured hash name that is an attribute of
`hashlib` but unavailable on the host (its constructor raises `ValueError`) is
skipped: the scan returns without an exception, its match result is the
pointwise disjunction over the configured algorithms (an unavailable one
contributing `false`), each algorithm is warned about at most once, and an
algorithm already recorded in the `first_time` registry is never warned about
again.  A configured name that is not an attribute of `hashlib` at all
instead raises `AttributeError` (only `ValueError` is caught). -/
theorem unavailable_hash_skipped_with_single_warning :
    (∀ (hl : String → Option (List Nat → Option String)) (key : List Nat) (hexfp : PyVal)
       (algos st : List String), (∀ a ∈ algos, (hl a).isSome) →
       ∃ m st2 w, fingerprint_hash_scan hl key hexfp algos st = .ok (m, st2, w) ∧
         m = algos.any (algo_matches hl key hexfp) ∧
         (∀ a, w.count a ≤ 1) ∧
         (∀ a, ftKey a ∈ st → a ∉ w)) ∧
    (∀ (hl : String → Option (List Nat → Option String)) (key : List Nat) (hexfp : PyVal)
       (a : String) (rest st : List String), hl a = none →
       fingerprint_hash_scan hl key hexfp (a :: rest) st = .error .attributeError) := by
  constructor
  · intro hl key hexfp algos st h
    obtain ⟨m, st2, w, heq, hm, hnd, hw, hsub⟩ :=
      fingerprint_hash_scan_ok hl key hexfp algos st h
    refine ⟨m, st2, w, heq, hm, ?_, ?_⟩
    · exact fun a => List.nodup_iff_count_le_one.mp hnd a
    · intro a hst haw
      exact (hw a haw).1 hst
  · intro hl key hexfp a rest st hnone
    simp only [fingerprint_hash_scan, hnone]

/-- Claim C6, counterexample to the frozen statement.  A configured name that
`hashlib` does not define (here `ripemd160` on the FIPS oracle) is not skipped
with a warning: the scan raises `AttributeError`. -/
theorem missing_hash_name_raises_attribute_error :
    hashlibFips "ripemd160" = none ∧
    fingerprint_hash_scan hashlibFips [] (.bytes []) ["md5", "ripemd160"] [] =
      .error .attributeError := by
  exact ⟨rfl, by decide⟩

/-- Concrete instance of `unavailable_hash_skipped_with_single_warning`. -/
theorem unavailable_hash_skipped_with_single_warning_witness :
    (∃ m st2 w, fingerprint_hash_scan hashlibFips [] (.bytes []) ["md5", "md5"] [] =
        .ok (m, st2, w) ∧
      m = (["md5", "md5"].any (algo_matches hashlibFips [] (.bytes []))) ∧
      (∀ a, w.count a ≤ 1) ∧ (∀ a, ftKey a ∈ ([] : List String) → a ∉ w)) ∧
    fingerprint_hash_scan hashlibFips [] (.bytes []) ["sha1"] [] = .error .attributeError :=
  ⟨unavailable_hash_skipped_with_single_warning.1 hashlibFips [] (.bytes [])
      ["md5", "md5"] [] (by decide),
   unavailable_hash_skipped_with_single_warning.2 hashlibFips [] (.bytes [])
      "sha1" [] [] rfl⟩

/-- Claim C7.  The proxy-channel slot is single-writer: over any non-empty
sequence of `_run_proxy` calls, the slot ends up holding exactly the last
channel, the completion event is set, and the channels closed are exactly the
displaced ones — whatever the slot held initially followed by every handed-off
channel except the last. -/
theorem run_proxy_single_writer (s : ProxyState) (cs : List Nat) (h : cs ≠ []) :
    (List.foldl run_proxy s cs).proxy_channel = cs.getLast? ∧
    (List.foldl run_proxy s cs).event_set = true ∧
    (List.foldl run_proxy s cs).closed =
      s.closed ++ s.proxy_channel.toList ++ cs.dropLast := by
  induction cs generalizing s with
  | nil => exact absurd rfl h
  | cons c tl ih =>
    cases tl with
    | nil =>
      refine ⟨?_, ?_, ?_⟩
      · simpa using run_proxy_channel s c
      · simpa using run_proxy_event s c
      · simpa using run_proxy_closed s c
    | cons c2 tl2 =>
      have ih' := ih (s := run_proxy s c) (by simp)
      have h1 : List.foldl run_proxy s (c :: c2 :: tl2) =
          List.foldl run_proxy (run_proxy s c) (c2 :: tl2) := rfl
      rw [h1]
      refine ⟨?_, ih'.2.1, ?_⟩
      · rw [ih'.1, List.getLast?_cons_cons]
      · rw [ih'.2.2, run_proxy_closed, run_proxy_channel]
        show _ = s.closed ++ s.proxy_channel.toList ++ (c :: (c2 :: tl2).dropLast)
        simp

/-- Concrete instance of `run_proxy_single_writer`. -/
theorem run_proxy_single_writer_witness :
    (List.foldl run_proxy proxyState0 [1, 2]).proxy_channel = [1, 2].getLast? ∧
    (List.foldl run_proxy proxyState0 [1, 2]).event_set = true ∧
    (List.foldl run_proxy proxyState0 [1, 2]).closed =
      proxyState0.closed ++ proxyState0.proxy_channel.toList ++ [1, 2].dropLast :=
  run_proxy_single_writer proxyState0 [1, 2] (by decide)

/-- Claim C8.  The bootstrap tail returns a connection object only on the
direct-handoff success path: an unset event or an empty slot closes the raw
connection and yields `None`; a stashed channel bridged to a subprocess
yields `None` without closing; a stashed channel with no subprocess yields the
connection object wrapping exactly that channel; and whenever a connection
object is returned, the event was set, the slot held that channel, it had no
subprocess bridge and the raw connection was not closed. -/
theorem bootstrap_finish_spec (es : Bool) (pc : Option Nat) (hp : Nat → Bool) :
    ((es = false ∨ pc = none) → bootstrap_finish es pc hp = ⟨none, true⟩) ∧
    (∀ c, es = true → pc = some c → hp c = true →
       bootstrap_finish es pc hp = ⟨none, false⟩) ∧
    (∀ c, es = true → pc = some c → hp c = false →
       bootstrap_finish es pc hp = ⟨some c, false⟩) ∧
    (∀ c, (bootstrap_finish es pc hp).ret = some c →
       es = true ∧ pc = some c ∧ hp c = false ∧
       (bootstrap_finish es pc hp).conn_closed = false) := by
  refine ⟨?_, ?_, ?_, ?_⟩
  · intro h; unfold bootstrap_finish; rw [if_pos h]
  · rintro c rfl rfl h
    unfold bootstrap_finish
    rw [if_neg (by simp)]
    simp [h]
  · rintro c rfl rfl h
    unfold bootstrap_finish
    rw [if_neg (by simp)]
    simp [h]
  · intro c hr
    unfold bootstrap_finish at hr ⊢
    by_cases h : es = false ∨ pc = none
    · rw [if_pos h] at hr; cases hr
    · rw [if_neg h] at hr ⊢
      push_neg at h
      obtain ⟨h1, h2⟩ := h
      cases pc with
      | none => exact absurd rfl h2
      | some c' =>
        by_cases h3 : hp c' = true
        · simp [h3] at hr
        · simp [h3] at hr ⊢
          subst hr
          exact ⟨eq_true_of_ne_false h1, rfl, Bool.eq_false_iff.mpr h3⟩

/-- Concrete instance of `bootstrap_finish_spec`. -/
theorem bootstrap_finish_spec_witness :
    bootstrap_finish true (some 5) hasProcNone = ⟨some 5, false⟩ :=
  (bootstrap_finish_spec true (some 5) hasProcNone).2.2.1 5 rfl rfl rfl

/-- Claim C9.  `chan_send` on an empty buffer returns with no send attempt;
on a non-empty buffer it raises exactly when the loop left data undrained; the
loop only ever advances the buffer by the accepted counts (the remainder is a
suffix of the input); and an undrained remainder means the 5-second window was
exhausted or the last write accepted zero bytes. -/
theorem chan_send_spec (send : List Nat → Nat) (clock : Nat → Rat) (data : List Nat) :
    (data = [] → chan_send send clock data 5 = .ok ([], 0)) ∧
    (data ≠ [] →
      ((∃ e, chan_send send clock data 5 = .error e) ↔
        (chan_send_loop send clock 5 data 0).1 ≠ [])) ∧
    (∃ k, (chan_send_loop send clock 5 data 0).1 = data.drop k) ∧
    ((chan_send_loop send clock 5 data 0).1 ≠ [] →
      5 ≤ clock (chan_send_loop send clock 5 data 0).2 ∨
      send (chan_send_loop send clock 5 data 0).1 = 0) := by
  obtain ⟨hsuf, hend⟩ := chan_send_go_spec send clock 5 data.length data 0 le_rfl
  refine ⟨?_, ?_, hsuf, hend⟩
  · intro hd; subst hd; rfl
  · intro hd
    unfold chan_send
    rw [if_neg hd]
    by_cases hr : (chan_send_loop send clock 5 data 0).1 = []
    · rw [if_pos hr]
      exact iff_of_false (by rintro ⟨e, he⟩; cases he) (not_not_intro hr)
    · rw [if_neg hr]
      exact iff_of_true ⟨_, rfl⟩ hr

/-- Concrete instance of `chan_send_spec`: the empty buffer, and a send
function accepting nothing, which ends the loop with the zero-write cause. -/
theorem chan_send_spec_witness :
    chan_send sendAll clockZero [] 5 = .ok ([], 0) ∧
    ((5 : Rat) ≤ clockZero (chan_send_loop sendNone clockZero 5 [1] 0).2 ∨
      sendNone (chan_send_loop sendNone clockZero 5 [1] 0).1 = 0) :=
  ⟨(chan_send_spec sendAll clockZero []).1 rfl,
   (chan_send_spec sendNone clockZero [1]).2.2.2 (by decide)⟩

/-- Claim C10.  An exec request whose command tokenizes to zero tokens is not
handled by any dispatch rule and is not a clean rejection either: the very
first test `cmd[0] in (...)` indexes an empty list and raises `IndexError`. -/
theorem exec_request_empty_command_index_error (env : ExecEnv) :
    check_channel_exec_request env [] = .error .indexError := rfl

end Xpra
